import Mathlib

/-!
# Verification of the keyword-match-to-reply-composition engine (`app.py`)

Shallow embedding of the resolver in `app.py`:

* a spreadsheet row (`dict` returned by `gspread.get_all_records`) is a map
  from column name to optional cell string (`none` models an absent key,
  so `row.get(k)` is the function itself and `row.get(k, d)` is `rowGetD`);
* Python truthiness of a cell is `pyTruthy` (absent or empty string is falsy);
* `re.search(pattern, text, re.IGNORECASE)` is an oracle parameter
  `R : ReOracle`; `.error ()` models `re.error` raised on an invalid pattern,
  `.ok none` models no match and `.ok (some m)` a match object, of which the
  code only consumes `match.groups()` (the tuple of capture groups, a
  non-participating group being `None`) and `match.group(1)`;
* exceptions raised while processing a row (`re.error`, `int()` on a
  non-numeric string, `str.format` on a stray brace) are the `.err` outcome,
  caught by the `try` that wraps the whole loop of `find_reply_in_sheet`,
  which then returns the generic error reply.
-/

/-- The character `{` (written via its code point so it never occurs in a
string literal). -/
def lbrace : Char := Char.ofNat 123

/-- The character `}`. -/
def rbrace : Char := Char.ofNat 125

/-- The characters of the format field `num}` that follow an opening brace. -/
def numTail : List Char := ['n', 'u', 'm', rbrace]

/-- The characters of the placeholder `{num}` used in `TextReply` templates. -/
def numTok : List Char := lbrace :: numTail

/-- A knowledge-base row: `row k` is Python's `row.get(k)`. -/
abbrev Row := String → Option String

/-- Build a row from an association list, like a Python dict literal. -/
def rowOf (l : List (String × String)) : Row := fun k => l.lookup k

/-- Python's `row.get(k, d)`: the default applies only when the key is absent. -/
def rowGetD (row : Row) (k : String) (d : String) : String := (row k).getD d

/-- Python truthiness of a cell: `None` and `""` are falsy. -/
def pyTruthy : Option String → Bool
  | none => false
  | some s => s != ""

/-- Python `str()` of a cell as used in f-strings and `format` arguments:
`None` prints as `"None"`. -/
def pyStr : Option String → String
  | none => "None"
  | some s => s

/-- The part of a Python `re` match object consumed by the code:
`groups` is `match.groups()`, a list with one entry per capturing group of
the pattern, `none` for a group that did not participate in the match. -/
structure MatchResult where
  groups : List (Option String)
deriving Repr, DecidableEq

/-- The external regex engine: `R pattern text` models
`re.search(pattern, text, re.IGNORECASE)`; `.error ()` is the `re.error`
raised when `pattern` does not compile. -/
abbrev ReOracle := String → String → Except Unit (Option MatchResult)

/-- Does `pat` occur as a contiguous run inside `l`? -/
def listSub [BEq α] : List α → List α → Bool
  | pat, [] => pat.isEmpty
  | pat, a :: l => pat.isPrefixOf (a :: l) || listSub pat (l)

/-- Python's `pat in s` substring test. -/
def strContainsSub (s pat : String) : Bool := listSub pat.data s.data

/-- ASCII whitespace stripped by Python's `int()`. -/
def pyWs (c : Char) : Bool :=
  c = ' ' || c = '\t' || c = '\n' || c = '\r' || c = Char.ofNat 11 || c = Char.ofNat 12

/-- Strip leading and trailing whitespace from a character list. -/
def stripChars (l : List Char) : List Char :=
  ((l.dropWhile pyWs).reverse.dropWhile pyWs).reverse

/-- Decimal value of a digit list. -/
def digitsToNat (l : List Char) : Nat :=
  l.foldl (fun a c => a * 10 + (c.toNat - 48)) 0

/-- Python `int(s)` on a string: optional surrounding whitespace, optional
sign, then at least one digit; anything else raises (`none`). (A numeric
spreadsheet cell reaches `int()` already as an integer, which this parse
accepts unchanged.) -/
def pyIntParse (s : String) : Option Int :=
  match stripChars s.data with
  | '+' :: r => if !r.isEmpty && r.all Char.isDigit then some (digitsToNat r) else none
  | '-' :: r => if !r.isEmpty && r.all Char.isDigit then some (-(digitsToNat r : Int)) else none
  | r => if !r.isEmpty && r.all Char.isDigit then some (digitsToNat r) else none

/-- One reply content item, carrying exactly the values the code passes to
the corresponding LINE SDK message constructor (an `Option` field records
that the code may pass `None` through unchecked). -/
inductive Msg
  | text (body : String)
  | image (originalContentUrl previewImageUrl : Option String)
  | video (originalContentUrl previewImageUrl : Option String)
  | audio (originalContentUrl : Option String) (duration : Int)
  | buttons (altText bodyText label uri : String)
deriving Repr, DecidableEq

/-- `str.format` of a template against the single keyword argument
`num = v`: `{{`/`}}` are escapes, `{num}` is substituted, any other field or
stray brace raises (`none`), as Python's `format` does with one kwarg. -/
def formatChars (v : List Char) : List Char → Option (List Char)
  | [] => some []
  | c :: cs =>
    if c = lbrace then
      match cs with
      | 'n' :: 'u' :: 'm' :: c5 :: rest =>
        if c5 = rbrace then (formatChars v rest).map (v ++ ·)
        else none
      | c2 :: cs2 => if c2 = lbrace then (formatChars v cs2).map (lbrace :: ·) else none
      | [] => none
    else if c = rbrace then
      match cs with
      | c2 :: cs2 => if c2 = rbrace then (formatChars v cs2).map (rbrace :: ·) else none
      | [] => none
    else (formatChars v cs).map (c :: ·)

/-- `tmpl.format(num = v)` on strings. -/
def pyFormatNum (v tmpl : String) : Option String :=
  (formatChars v.data tmpl.data).map fun l => String.mk l

/-- The string `"{num}"` (the placeholder looked up by `'{num}' in tmpl`). -/
def numTokStr : String := String.mk numTok

/-- Outcome of processing one row inside the loop of `find_reply_in_sheet`:
the loop `continue`s, the function `return`s a list of messages, or an
exception is raised (to be caught by the surrounding `try`). -/
inductive RowOutcome
  | skip
  | ret (msgs : List Msg)
  | err
deriving Repr, DecidableEq

/-- `row.get('RedirectURL') or f"https://line.me/R/ti/p/{row.get('RedirectOA_ID')}"`. -/
def redirectUri (row : Row) : String :=
  if pyTruthy (row "RedirectURL") then pyStr (row "RedirectURL")
  else "https://line.me/R/ti/p/" ++ pyStr (row "RedirectOA_ID")

/-- `match.group(1)`: the first capturing group (only evaluated when
`match.groups()` is non-empty, so the group exists). -/
def group1 (m : MatchResult) : Option String := m.groups.headD none

/-- The `response_type == 'text'` branch (app.py lines 78-84). -/
def textBranch (row : Row) (m : MatchResult) : RowOutcome :=
  let reply_template := rowGetD row "TextReply" ""
  if strContainsSub reply_template numTokStr && !m.groups.isEmpty then
    match pyFormatNum (pyStr (group1 m)) reply_template with
    | some reply_text => .ret [Msg.text reply_text]
    | none => .err
  else .ret [Msg.text reply_template]

/-- The `response_type == 'audio'` branch (app.py lines 95-98):
`int(row.get('DurationMillis', 60000))` defaults only when the key is
absent; a present non-numeric value makes `int` raise. -/
def audioBranch (row : Row) : RowOutcome :=
  match row "DurationMillis" with
  | none => .ret [Msg.audio (row "AudioURL") 60000]
  | some s =>
    match pyIntParse s with
    | some duration => .ret [Msg.audio (row "AudioURL") duration]
    | none => .err

/-- The `response_type == 'redirect'` branch (app.py lines 100-111). -/
def redirectBranch (row : Row) : RowOutcome :=
  .ret [Msg.buttons "Information"
    (rowGetD row "TextReply" "กรุณากดปุ่มด้านล่างเพื่อดำเนินการต่อ")
    (rowGetD row "ButtonLabel" "คลิกที่นี่")
    (redirectUri row)]

/-- `if len(messages_to_reply) < 5 and cond: messages_to_reply.append(m)` —
the capped append used by every combo step after the text item. -/
def capApp (ms : List Msg) (cond : Bool) (m : Msg) : List Msg :=
  if ms.length < 5 then (if cond then ms ++ [m] else ms) else ms

/-- Combo step 1 (app.py lines 114-116): the text item, appended with no
length check (the list is still empty there). -/
def comboBase (row : Row) : List Msg :=
  if pyTruthy (row "TextReply") then [Msg.text (pyStr (row "TextReply"))] else []

/-- An image item whose original and preview URL are both the cell of `k`. -/
def imgMsg (row : Row) (k : String) : Msg := Msg.image (row k) (row k)

/-- The button item of combo step 4 (app.py lines 130-142): note the body
text also comes from `ButtonLabel` (with a different default), as in the
source. -/
def comboButton (row : Row) : Msg :=
  Msg.buttons "Information"
    (rowGetD row "ButtonLabel" "ดำเนินการต่อ")
    (rowGetD row "ButtonLabel" "คลิกที่นี่")
    (redirectUri row)

/-- The `response_type == 'combo'` branch (app.py lines 113-143): text,
then `ImageURL1..ImageURL4`, then the video pair, then the button, each
append after the first guarded by the 5-item cap. -/
def comboMessages (row : Row) : List Msg :=
  capApp
    (capApp
      (capApp
        (capApp
          (capApp
            (capApp (comboBase row)
              (pyTruthy (row "ImageURL1")) (imgMsg row "ImageURL1"))
            (pyTruthy (row "ImageURL2")) (imgMsg row "ImageURL2"))
          (pyTruthy (row "ImageURL3")) (imgMsg row "ImageURL3"))
        (pyTruthy (row "ImageURL4")) (imgMsg row "ImageURL4"))
      (pyTruthy (row "VideoURL") && pyTruthy (row "PreviewImageURL"))
      (Msg.video (row "VideoURL") (row "PreviewImageURL")))
    (pyTruthy (row "RedirectOA_ID") || pyTruthy (row "RedirectURL"))
    (comboButton row)

/-- Dispatch on `row.get('ResponseType')` (app.py lines 75-143). A type that
matches none of the six branches leaves the loop body without returning, so
the loop continues with the next row (`skip`). -/
def composeReply (row : Row) (m : MatchResult) : RowOutcome :=
  let response_type := row "ResponseType"
  if response_type = some "text" then textBranch row m
  else if response_type = some "image" then
    .ret [Msg.image (row "ImageURL1") (row "ImageURL1")]
  else if response_type = some "video" then
    .ret [Msg.video (row "VideoURL") (row "PreviewImageURL")]
  else if response_type = some "audio" then audioBranch row
  else if response_type = some "redirect" then redirectBranch row
  else if response_type = some "combo" then .ret (comboMessages row)
  else .skip

/-- One iteration of the row loop of `find_reply_in_sheet` (app.py lines
68-143): skip rows without a truthy `Keyword`, run `re.search` (which may
raise on an invalid pattern), and on a match dispatch on the response type. -/
def rowReply (R : ReOracle) (user_message : String) (row : Row) : RowOutcome :=
  if pyTruthy (row "Keyword") then
    match R (pyStr (row "Keyword")) user_message with
    | .error _ => .err
    | .ok none => .skip
    | .ok (some m) => composeReply row m
  else .skip

/-- The generic reply returned by the `except` clause of
`find_reply_in_sheet` (app.py line 147). -/
def errorReply : List Msg :=
  [Msg.text "Sorry, there was an error reading the database."]

/-- The row loop under the `try` of `find_reply_in_sheet`: `none` models the
Python `return None` after an exhausted loop; a raised exception is caught
by the enclosing `try` and turned into `errorReply`. -/
def scanRows (R : ReOracle) (user_message : String) : List Row → Option (List Msg)
  | [] => none
  | row :: rest =>
    match rowReply R user_message row with
    | .skip => scanRows R user_message rest
    | .ret msgs => some msgs
    | .err => some errorReply

/-- A worksheet handle: `fetchFail` models `sheet.get_all_records()` raising
(transient I/O failure). -/
inductive Sheet
  | ok (rows : List Row)
  | fetchFail

/-- `find_reply_in_sheet(sheet, user_message)` (app.py lines 65-147):
`none` is Python `None` (no match), `some l` a returned message list; any
exception inside the `try` yields `errorReply`. -/
def find_reply_in_sheet (R : ReOracle) (user_message : String) : Sheet → Option (List Msg)
  | .fetchFail => some errorReply
  | .ok rows => scanRows R user_message rows

/-- The fixed default reply of `handle_text_message` (app.py line 194). -/
def notFoundReply : List Msg :=
  [Msg.text "ขออภัยค่ะ ไม่พบข้อมูลที่ท่านสอบถาม"]

/-- The body of `handle_text_message` after stripping (app.py lines 185-194),
generalized over the prioritized sheet list `[simple_qna_sheet,
digital_sheet, general_sheet]` (a `none` entry is a sheet global left unset
at startup, skipped by `if sheet:`): scan sheets in order, return the first
truthy result, else the default "not found" reply. -/
def handle_text_message (R : ReOracle) (sheets : List (Option Sheet))
    (user_message : String) : List Msg :=
  match sheets with
  | [] => notFoundReply
  | none :: rest => handle_text_message R rest user_message
  | some sheet :: rest =>
    match find_reply_in_sheet R user_message sheet with
    | some (m :: ms) => m :: ms
    | _ => handle_text_message R rest user_message

/-- An oracle for tests: `pat` matches exactly the text `txt`, producing the
match object `m`; every other pattern compiles and matches nothing. -/
def litOracle (pat txt : String) (m : MatchResult) : ReOracle :=
  fun p t => if p = pat && t = txt then .ok (some m) else .ok none

/-- An oracle layering an invalid pattern (raising `re.error`) over another
oracle. -/
def badPatternOracle (bad : String) (inner : ReOracle) : ReOracle :=
  fun p t => if p = bad then .error () else inner p t

/-- A sheet entry whose result is falsy for the handler loop: absent
(`None` global), or a search returning `None` or the empty list. -/
def sheetFalsyB (R : ReOracle) (user_message : String) : Option Sheet → Bool
  | none => true
  | some sheet =>
    match find_reply_in_sheet R user_message sheet with
    | none => true
    | some [] => true
    | some (_ :: _) => false

/-- A row whose outcome neither returns a non-empty list nor raises. -/
def rowFalsyB (R : ReOracle) (user_message : String) (row : Row) : Bool :=
  match rowReply R user_message row with
  | .skip => true
  | .ret [] => true
  | .ret (_ :: _) => false
  | .err => false

/-- A sheet entry in which no row produces anything: absent, or a readable
sheet whose every row either does not match (falsy keyword or no match) or
matches but composes the empty list. -/
def sheetNoMatchB (R : ReOracle) (msg : String) : Option Sheet → Bool
  | none => true
  | some .fetchFail => false
  | some (.ok rows) => rows.all (rowFalsyB R msg)

/-- Characters that take the plain-copy path of `str.format`. -/
def braceFree (l : List Char) : Bool := l.all fun c => c != lbrace && c != rbrace

/-- The six `ResponseType` values handled by the dispatch of
`find_reply_in_sheet`. -/
def knownTypeB : Option String → Bool
  | none => false
  | some t =>
    t == "text" || t == "image" || t == "video" || t == "audio" ||
      t == "redirect" || t == "combo"

theorem scanRows_skip_front (R : ReOracle) (msg : String) (R₁ l : List Row)
    (h : ∀ row ∈ R₁, rowReply R msg row = .skip) :
    scanRows R msg (R₁ ++ l) = scanRows R msg l := by
  induction R₁ with
  | nil => rfl
  | cons row rest ih =>
    have hrow := h row (List.mem_cons_self row rest)
    simp only [List.cons_append, scanRows, hrow]
    exact ih fun r hr => h r (List.mem_cons_of_mem row hr)

theorem handle_falsy_front (R : ReOracle) (msg : String)
    (S₁ L : List (Option Sheet))
    (h : ∀ o ∈ S₁, sheetFalsyB R msg o = true) :
    handle_text_message R (S₁ ++ L) msg = handle_text_message R L msg := by
  induction S₁ with
  | nil => rfl
  | cons o rest ih =>
    have hrest := fun o ho => h o (List.mem_cons_of_mem _ ho)
    have ho := h o (List.mem_cons_self o rest)
    match o with
    | none => simpa [handle_text_message] using ih hrest
    | some sheet =>
      simp only [sheetFalsyB] at ho
      simp only [List.cons_append, handle_text_message]
      match hf : find_reply_in_sheet R msg sheet with
      | none => simpa [hf] using ih hrest
      | some [] => simpa [hf] using ih hrest
      | some (m :: ms) => simp [hf] at ho

theorem capApp_length_le (ms : List Msg) (c : Bool) (m : Msg)
    (h : ms.length ≤ 5) : (capApp ms c m).length ≤ 5 := by
  by_cases h5 : ms.length < 5
  · cases c <;> simp [capApp, h5] <;> omega
  · simp [capApp, h5, h]

theorem comboBase_length_le (row : Row) : (comboBase row).length ≤ 5 := by
  unfold comboBase; split <;> simp

/-- **C1.** For every prioritized list of tables and every input text,
resolution is strictly priority-ordered and short-circuits: once the scan
reaches a row whose `Keyword` pattern matches and whose composed reply is
non-empty, that reply is the handler's answer, and the answer does not
depend on the later rows `R₂` of the same table nor on the lower-priority
tables `S₂` (they are never consulted). -/
theorem c1_priority_short_circuit (R : ReOracle) (msg : String)
    (S₁ S₂ : List (Option Sheet)) (R₁ R₂ : List Row) (r : Row) (msgs : List Msg)
    (hS : ∀ o ∈ S₁, sheetFalsyB R msg o = true)
    (hR : ∀ row ∈ R₁, rowReply R msg row = .skip)
    (hr : rowReply R msg r = .ret msgs) (hne : msgs ≠ []) :
    handle_text_message R (S₁ ++ some (.ok (R₁ ++ r :: R₂)) :: S₂) msg = msgs := by
  rw [handle_falsy_front R msg S₁ _ hS]
  have hfind : find_reply_in_sheet R msg (.ok (R₁ ++ r :: R₂)) = some msgs := by
    simp only [find_reply_in_sheet, scanRows_skip_front R msg R₁ _ hR,
      scanRows, hr]
  match msgs, hne with
  | m :: ms, _ => simp [handle_text_message, hfind]

/-- **C1 witness.** A run with a lower-priority non-matching sheet, an
absent sheet handle, a keyword-less row before the hit, a later row and a
lower-priority failing sheet: the hit's reply is returned. -/
theorem c1_priority_short_circuit_witness :
    handle_text_message (litOracle "k" "k" ⟨[]⟩)
      [some (.ok [rowOf [("Keyword", "zzz"), ("ResponseType", "text"), ("TextReply", "B")]]),
       none,
       some (.ok [rowOf [("ResponseType", "text"), ("TextReply", "A")],
                  rowOf [("Keyword", "k"), ("ResponseType", "text"), ("TextReply", "X")],
                  rowOf [("Keyword", "k"), ("ResponseType", "text"), ("TextReply", "Y")]]),
       some .fetchFail] "k" = [Msg.text "X"] :=
  c1_priority_short_circuit (litOracle "k" "k" ⟨[]⟩) "k"
    [some (.ok [rowOf [("Keyword", "zzz"), ("ResponseType", "text"), ("TextReply", "B")]]), none]
    [some .fetchFail]
    [rowOf [("ResponseType", "text"), ("TextReply", "A")]]
    [rowOf [("Keyword", "k"), ("ResponseType", "text"), ("TextReply", "Y")]]
    (rowOf [("Keyword", "k"), ("ResponseType", "text"), ("TextReply", "X")])
    [Msg.text "X"] (by decide) (by decide) (by decide) (by decide)

/-- **C2.** Every combo composition has at most 5 items, and the scenario
row with `TextReply`, all four image URLs and `RedirectURL` set composes
exactly `[text, image, image, image, image]`, the button being omitted
because the cap was reached first. -/
theorem c2_combo_cap :
    (∀ row : Row, (comboMessages row).length ≤ 5) ∧
    rowReply (litOracle "promo" "promo" ⟨[]⟩) "promo"
      (rowOf [("Keyword", "promo"), ("ResponseType", "combo"), ("TextReply", "T"),
              ("ImageURL1", "u1"), ("ImageURL2", "u2"), ("ImageURL3", "u3"),
              ("ImageURL4", "u4"), ("RedirectURL", "https://x")]) =
      .ret [Msg.text "T", Msg.image (some "u1") (some "u1"),
            Msg.image (some "u2") (some "u2"), Msg.image (some "u3") (some "u3"),
            Msg.image (some "u4") (some "u4")] := by
  constructor
  · intro row
    exact capApp_length_le _ _ _ (capApp_length_le _ _ _ (capApp_length_le _ _ _
      (capApp_length_le _ _ _ (capApp_length_le _ _ _ (capApp_length_le _ _ _
        (comboBase_length_le row))))))
  · decide

/-- **C4 counterexample.** A matched combo row whose composition is empty:
the claim predicts fallthrough to the next row of the same table, which
would yield `[text "X"]`; the code instead returns the empty list from
`find_reply_in_sheet` (ending the table scan at that row), so the handler
falls back to the default reply and the later row is never consulted. -/
theorem c4_counterexample :
    handle_text_message (litOracle "k" "k" ⟨[]⟩)
      [some (.ok [rowOf [("Keyword", "k"), ("ResponseType", "combo")],
                  rowOf [("Keyword", "k"), ("ResponseType", "text"), ("TextReply", "X")]])]
      "k" = notFoundReply ∧
    find_reply_in_sheet (litOracle "k" "k" ⟨[]⟩) "k"
      (.ok [rowOf [("Keyword", "k"), ("ResponseType", "text"), ("TextReply", "X")]]) =
      some [Msg.text "X"] ∧
    notFoundReply ≠ [Msg.text "X"] :=
  ⟨by decide, by decide, by decide⟩

/-- **C4 amended.** A matched row composing an empty list ends the scan of
the current table (the empty list is returned as that table's falsy result);
resolution then falls through to the lower-priority tables only — later rows
`R₂` of the same table are not consulted. -/
theorem c4_empty_compose_falls_to_next_table (R : ReOracle) (msg : String)
    (R₁ R₂ : List Row) (r : Row) (S₂ : List (Option Sheet))
    (hR : ∀ row ∈ R₁, rowReply R msg row = .skip)
    (hr : rowReply R msg r = .ret []) :
    handle_text_message R (some (.ok (R₁ ++ r :: R₂)) :: S₂) msg =
      handle_text_message R S₂ msg := by
  have hfind : find_reply_in_sheet R msg (.ok (R₁ ++ r :: R₂)) = some [] := by
    simp only [find_reply_in_sheet, scanRows_skip_front R msg R₁ _ hR, scanRows, hr]
  simp [handle_text_message, hfind]

/-- **C4 amended witness.** The empty-composing combo row masks the later
row of its own table; the matching row of the lower-priority table answers. -/
theorem c4_empty_compose_falls_to_next_table_witness :
    handle_text_message (litOracle "k" "k" ⟨[]⟩)
      [some (.ok [rowOf [("Keyword", "k"), ("ResponseType", "combo")],
                  rowOf [("Keyword", "k"), ("ResponseType", "text"), ("TextReply", "X")]]),
       some (.ok [rowOf [("Keyword", "k"), ("ResponseType", "text"), ("TextReply", "Z")]])]
      "k" = [Msg.text "Z"] :=
  (c4_empty_compose_falls_to_next_table (litOracle "k" "k" ⟨[]⟩) "k"
    []
    [rowOf [("Keyword", "k"), ("ResponseType", "text"), ("TextReply", "X")]]
    (rowOf [("Keyword", "k"), ("ResponseType", "combo")])
    [some (.ok [rowOf [("Keyword", "k"), ("ResponseType", "text"), ("TextReply", "Z")]])]
    (by decide) (by decide)).trans (by decide)

/-- **C5 counterexample.** A row whose `Keyword` is an invalid regex (the
oracle raises `re.error` on it, as `re.search` does for `"(["`): the claim
predicts the row is skipped and the next row answers with `[text "X"]`; the
code's `try` wraps the whole loop, so the exception aborts the scan and
`find_reply_in_sheet` returns the generic error reply instead. -/
theorem c5_counterexample :
    find_reply_in_sheet (badPatternOracle "([" (litOracle "k" "k" ⟨[]⟩)) "k"
      (.ok [rowOf [("Keyword", "(["), ("ResponseType", "text"), ("TextReply", "B")],
            rowOf [("Keyword", "k"), ("ResponseType", "text"), ("TextReply", "X")]]) =
      some errorReply ∧
    errorReply ≠ [Msg.text "X"] :=
  ⟨by decide, by decide⟩

/-- **C5 amended.** A row whose `Keyword` fails to compile does not crash
the resolver, but it is not skipped either: the raised `re.error` is caught
by the table-level `try/except`, the table's result is the single generic
error reply (independent of the remaining rows `R₂`), and that non-empty
reply also short-circuits the lower-priority tables. -/
theorem c5_bad_regex_error_reply (R : ReOracle) (msg : String)
    (R₁ R₂ : List Row) (r : Row) (S₂ : List (Option Sheet))
    (hR : ∀ row ∈ R₁, rowReply R msg row = .skip)
    (hk : pyTruthy (r "Keyword") = true)
    (he : R (pyStr (r "Keyword")) msg = .error ()) :
    find_reply_in_sheet R msg (.ok (R₁ ++ r :: R₂)) = some errorReply ∧
    handle_text_message R (some (.ok (R₁ ++ r :: R₂)) :: S₂) msg = errorReply := by
  have hrow : rowReply R msg r = .err := by simp [rowReply, hk, he]
  have hfind : find_reply_in_sheet R msg (.ok (R₁ ++ r :: R₂)) = some errorReply := by
    simp only [find_reply_in_sheet, scanRows_skip_front R msg R₁ _ hR, scanRows, hrow]
  exact ⟨hfind, by simp [handle_text_message, hfind, errorReply]⟩

/-- **C5 amended witness.** An invalid-pattern row aborts its table with the
error reply and masks the matching row of the lower-priority table. -/
theorem c5_bad_regex_error_reply_witness :
    find_reply_in_sheet (badPatternOracle "([" (litOracle "k" "k" ⟨[]⟩)) "k"
      (.ok [rowOf [("Keyword", "(["), ("ResponseType", "text"), ("TextReply", "B")],
            rowOf [("Keyword", "k"), ("ResponseType", "text"), ("TextReply", "X")]]) =
      some errorReply ∧
    handle_text_message (badPatternOracle "([" (litOracle "k" "k" ⟨[]⟩))
      [some (.ok [rowOf [("Keyword", "(["), ("ResponseType", "text"), ("TextReply", "B")],
                  rowOf [("Keyword", "k"), ("ResponseType", "text"), ("TextReply", "X")]]),
       some (.ok [rowOf [("Keyword", "k"), ("ResponseType", "text"), ("TextReply", "Z")]])]
      "k" = errorReply :=
  c5_bad_regex_error_reply (badPatternOracle "([" (litOracle "k" "k" ⟨[]⟩)) "k"
    []
    [rowOf [("Keyword", "k"), ("ResponseType", "text"), ("TextReply", "X")]]
    (rowOf [("Keyword", "(["), ("ResponseType", "text"), ("TextReply", "B")])
    [some (.ok [rowOf [("Keyword", "k"), ("ResponseType", "text"), ("TextReply", "Z")]])]
    (by decide) (by rfl) (by rfl)

/-- **C6.** When a table's row fetch fails, that table's result is the
single generic error text item, and it short-circuits resolution: the
conclusion does not depend on the lower-priority tables `S₂`. -/
theorem c6_fetch_failure_short_circuits (R : ReOracle) (msg : String)
    (S₁ S₂ : List (Option Sheet))
    (hS : ∀ o ∈ S₁, sheetFalsyB R msg o = true) :
    handle_text_message R (S₁ ++ some .fetchFail :: S₂) msg = errorReply := by
  rw [handle_falsy_front R msg S₁ _ hS]
  simp [handle_text_message, find_reply_in_sheet, errorReply]

/-- **C6 witness.** A non-matching first sheet, then a failing fetch, then a
sheet that would match: the error reply masks the lower-priority table. -/
theorem c6_fetch_failure_short_circuits_witness :
    handle_text_message (litOracle "k" "k" ⟨[]⟩)
      [some (.ok [rowOf [("Keyword", "zzz"), ("ResponseType", "text"), ("TextReply", "B")]]),
       some .fetchFail,
       some (.ok [rowOf [("Keyword", "k"), ("ResponseType", "text"), ("TextReply", "Z")]])]
      "k" = errorReply :=
  c6_fetch_failure_short_circuits (litOracle "k" "k" ⟨[]⟩) "k"
    [some (.ok [rowOf [("Keyword", "zzz"), ("ResponseType", "text"), ("TextReply", "B")]])]
    [some (.ok [rowOf [("Keyword", "k"), ("ResponseType", "text"), ("TextReply", "Z")]])]
    (by decide)

theorem scanRows_falsy (R : ReOracle) (msg : String) (rows : List Row)
    (h : ∀ row ∈ rows, rowFalsyB R msg row = true) :
    scanRows R msg rows = none ∨ scanRows R msg rows = some [] := by
  induction rows with
  | nil => exact Or.inl rfl
  | cons row rest ih =>
    have ho := h row (List.mem_cons_self row rest)
    match hr : rowReply R msg row with
    | .skip =>
      simpa [scanRows, hr] using ih fun r h' => h r (List.mem_cons_of_mem row h')
    | .ret [] => exact Or.inr (by simp [scanRows, hr])
    | .ret (m :: ms) => simp [rowFalsyB, hr] at ho
    | .err => simp [rowFalsyB, hr] at ho

/-- **C7.** If in every table every row either fails to match or matches but
composes an empty item list (and no table read fails), the handler's reply
is exactly the single fixed default "not found" text item. -/
theorem c7_no_match_default (R : ReOracle) (msg : String)
    (sheets : List (Option Sheet))
    (h : ∀ o ∈ sheets, sheetNoMatchB R msg o = true) :
    handle_text_message R sheets msg = notFoundReply := by
  induction sheets with
  | nil => rfl
  | cons o rest ih =>
    have ho := h o (List.mem_cons_self o rest)
    have hrest := ih fun o' h' => h o' (List.mem_cons_of_mem o h')
    match o with
    | none => simpa [handle_text_message] using hrest
    | some .fetchFail => simp [sheetNoMatchB] at ho
    | some (.ok rows) =>
      have hfalsy : ∀ row ∈ rows, rowFalsyB R msg row = true := by
        simpa [sheetNoMatchB, List.all_eq_true] using ho
      rcases scanRows_falsy R msg rows hfalsy with hs | hs <;>
        simp [handle_text_message, find_reply_in_sheet, hs, hrest]

/-- **C7 witness.** A keyword-less row, a non-matching row, an absent sheet
and a matching combo row with no content fields: the default reply. -/
theorem c7_no_match_default_witness :
    handle_text_message (litOracle "k" "k" ⟨[]⟩)
      [some (.ok [rowOf [("ResponseType", "text"), ("TextReply", "A")],
                  rowOf [("Keyword", "zzz"), ("ResponseType", "text"), ("TextReply", "B")]]),
       none,
       some (.ok [rowOf [("Keyword", "k"), ("ResponseType", "combo")]])]
      "k" = notFoundReply :=
  c7_no_match_default (litOracle "k" "k" ⟨[]⟩) "k"
    [some (.ok [rowOf [("ResponseType", "text"), ("TextReply", "A")],
                rowOf [("Keyword", "zzz"), ("ResponseType", "text"), ("TextReply", "B")]]),
     none,
     some (.ok [rowOf [("Keyword", "k"), ("ResponseType", "combo")]])]
    (by decide)

theorem isPrefixOf_append_self [BEq α] [LawfulBEq α] (pat B : List α) :
    pat.isPrefixOf (pat ++ B) = true := by
  induction pat with
  | nil => cases B <;> rfl
  | cons a as ih => simp [List.isPrefixOf, ih]

theorem listSub_self_append [BEq α] [LawfulBEq α] (pat B : List α) :
    listSub pat (pat ++ B) = true := by
  cases pat with
  | nil => cases B <;> simp [listSub, List.isPrefixOf]
  | cons p ps => simp [listSub, isPrefixOf_append_self]

theorem listSub_middle [BEq α] [LawfulBEq α] (pat A B : List α) :
    listSub pat (A ++ (pat ++ B)) = true := by
  induction A with
  | nil => simpa using listSub_self_append pat B
  | cons a A ih => simp [listSub, ih]

theorem formatChars_cons_plain (v : List Char) (c : Char) (cs : List Char)
    (h1 : ¬c = lbrace) (h2 : ¬c = rbrace) :
    formatChars v (c :: cs) = (formatChars v cs).map (c :: ·) := by
  conv_lhs => rw [formatChars.eq_def]
  simp [h1, h2]

theorem formatChars_braceFree_append (v A l : List Char)
    (hA : braceFree A = true) :
    formatChars v (A ++ l) = (formatChars v l).map (A ++ ·) := by
  induction A with
  | nil => simp
  | cons a A ih =>
    simp only [braceFree, List.all_cons, Bool.and_eq_true, bne_iff_ne, ne_eq] at hA
    obtain ⟨⟨ha1, ha2⟩, hA'⟩ := hA
    have ih' := ih (by simpa [braceFree] using hA')
    rw [List.cons_append, formatChars_cons_plain v a (A ++ l) ha1 ha2, ih']
    cases formatChars v l <;> simp

theorem formatChars_braceFree (v B : List Char) (hB : braceFree B = true) :
    formatChars v B = some B := by
  induction B with
  | nil => rfl
  | cons b B ih =>
    simp only [braceFree, List.all_cons, Bool.and_eq_true, bne_iff_ne, ne_eq] at hB
    obtain ⟨⟨hb1, hb2⟩, hB'⟩ := hB
    have ih' := ih (by simpa [braceFree] using hB')
    rw [formatChars_cons_plain v b B hb1 hb2, ih']
    rfl

theorem formatChars_numTok (v l : List Char) :
    formatChars v (numTok ++ l) = (formatChars v l).map (v ++ ·) := by
  cases h : formatChars v l <;> simp [numTok, numTail, formatChars, h]

/-- **C3 counterexample.** The oracle records what Python's
`re.search("ราคา(\d+)?", "ราคา")` returns: a match whose only capturing
group did not participate, so `match.groups() == (None,)` is truthy while no
group matched. The claim predicts the verbatim template; the code runs
`format(num=None)` and substitutes the string `"None"`. -/
theorem c3_counterexample :
    rowReply
      (fun p t =>
        if p = "ราคา(\\d+)?" && t = "ราคา" then .ok (some ⟨[none]⟩) else .ok none)
      "ราคา"
      (rowOf [("Keyword", "ราคา(\\d+)?"), ("ResponseType", "text"),
              ("TextReply", String.mk ("สินค้าราคา ".data ++ numTok ++ " บาท".data))]) =
      .ret [Msg.text "สินค้าราคา None บาท"] ∧
    ("สินค้าราคา None บาท" : String) ≠
      String.mk ("สินค้าราคา ".data ++ numTok ++ " บาท".data) :=
  ⟨by decide, by decide⟩

/-- **C3 amended.** For a matched `text` row: when `TextReply` is of the
form `A ++ "{num}" ++ B` with `A`, `B` brace-free and the pattern has at
least one capturing group (participating or not — Python's
`match.groups()` is truthy either way), the output substitutes the first
group's value, a non-participating group being rendered as `"None"`
(`pyStr`); when `TextReply` does not contain `{num}` or the pattern has no
capturing group at all, the output is `TextReply` verbatim. -/
theorem c3_num_substitution (R : ReOracle) (msg : String) (row : Row)
    (m : MatchResult) (A B : List Char)
    (hk : pyTruthy (row "Keyword") = true)
    (hm : R (pyStr (row "Keyword")) msg = .ok (some m))
    (ht : row "ResponseType" = some "text") :
    (rowGetD row "TextReply" "" = String.mk (A ++ (numTok ++ B)) →
      braceFree A = true → braceFree B = true → m.groups ≠ [] →
      rowReply R msg row =
        .ret [Msg.text (String.mk (A ++ ((pyStr (group1 m)).data ++ B)))]) ∧
    ((strContainsSub (rowGetD row "TextReply" "") numTokStr = false ∨
        m.groups = []) →
      rowReply R msg row = .ret [Msg.text (rowGetD row "TextReply" "")]) := by
  have hb : rowReply R msg row = textBranch row m := by
    simp [rowReply, hk, hm, composeReply, ht]
  constructor
  · intro htmpl hA hB hg
    have hgi : m.groups.isEmpty = false := by
      cases hgg : m.groups with
      | nil => exact absurd hgg hg
      | cons _ _ => simp [hgg]
    have hcontains :
        strContainsSub (String.mk (A ++ (numTok ++ B))) numTokStr = true :=
      listSub_middle numTok A B
    have hfmt : pyFormatNum (pyStr (group1 m)) (String.mk (A ++ (numTok ++ B))) =
        some (String.mk (A ++ ((pyStr (group1 m)).data ++ B))) := by
      show (formatChars (pyStr (group1 m)).data (A ++ (numTok ++ B))).map _ = _
      rw [formatChars_braceFree_append _ _ _ hA, formatChars_numTok,
        formatChars_braceFree _ _ hB]
      rfl
    rw [hb]
    simp [textBranch, htmpl, hcontains, hgi, hfmt]
  · intro hcase
    rw [hb]
    rcases hcase with hc | hgnil
    · simp [textBranch, hc]
    · simp [textBranch, hgnil]

/-- **C3 amended witness.** The spec scenario: input `"ราคา5"`, pattern
`"ราคา(\d+)"` (the oracle records `re.search` capturing `"5"`),
`TextReply = "สินค้าราคา {num} บาท"` gives `"สินค้าราคา 5 บาท"`. -/
theorem c3_num_substitution_witness :
    rowReply
      (litOracle "ราคา(\\d+)" "ราคา5" ⟨[some "5"]⟩) "ราคา5"
      (rowOf [("Keyword", "ราคา(\\d+)"), ("ResponseType", "text"),
              ("TextReply", String.mk ("สินค้าราคา ".data ++ (numTok ++ " บาท".data)))]) =
      .ret [Msg.text "สินค้าราคา 5 บาท"] :=
  ((c3_num_substitution
      (litOracle "ราคา(\\d+)" "ราคา5" ⟨[some "5"]⟩) "ราคา5"
      (rowOf [("Keyword", "ราคา(\\d+)"), ("ResponseType", "text"),
              ("TextReply", String.mk ("สินค้าราคา ".data ++ (numTok ++ " บาท".data)))])
      ⟨[some "5"]⟩ "สินค้าราคา ".data " บาท".data
      (by decide) (by rfl) (by rfl)).1
    (by rfl) (by decide) (by decide) (by decide)).trans (by decide)

/-- **C8 counterexample.** A matched `video` row with `PreviewImageURL` set
but `VideoURL` absent: the claim predicts the composed reply contains no
video item; the code's video branch (app.py lines 90-93) has no presence
check and returns a video item carrying the absent URL. -/
theorem c8_counterexample :
    (rowOf [("Keyword", "v"), ("ResponseType", "video"), ("PreviewImageURL", "pv")])
      "VideoURL" = none ∧
    rowReply (litOracle "v" "v" ⟨[]⟩) "v"
      (rowOf [("Keyword", "v"), ("ResponseType", "video"), ("PreviewImageURL", "pv")]) =
      .ret [Msg.video none (some "pv")] :=
  ⟨by decide, by decide⟩

/-- **C8 amended.** For every matched row with `ResponseType=video`, exactly
one video item is built, unconditionally, from whatever `VideoURL` and
`PreviewImageURL` hold (absent fields included); the both-fields-present
requirement exists only in the combo branch's video sub-item. -/
theorem c8_video_built_unconditionally (R : ReOracle) (msg : String)
    (row : Row) (m : MatchResult)
    (hk : pyTruthy (row "Keyword") = true)
    (hm : R (pyStr (row "Keyword")) msg = .ok (some m))
    (ht : row "ResponseType" = some "video") :
    rowReply R msg row =
      .ret [Msg.video (row "VideoURL") (row "PreviewImageURL")] := by
  simp [rowReply, hk, hm, composeReply, ht]

/-- **C8 amended witness.** A video row with both fields absent still yields
a video item. -/
theorem c8_video_built_unconditionally_witness :
    rowReply (litOracle "v" "v" ⟨[]⟩) "v"
      (rowOf [("Keyword", "v"), ("ResponseType", "video")]) =
      .ret [Msg.video none none] :=
  (c8_video_built_unconditionally (litOracle "v" "v" ⟨[]⟩) "v"
    (rowOf [("Keyword", "v"), ("ResponseType", "video")]) ⟨[]⟩
    (by decide) (by rfl) (by rfl)).trans (by decide)

/-- **C9 counterexample.** A matched `audio` row whose `DurationMillis` cell
holds the non-numeric string `"abc"`: the claim predicts an audio item with
the default duration 60000; in the code `int("abc")` raises, the table-level
`except` catches it, and the whole table answers with the generic error
reply — no audio item at all. -/
theorem c9_counterexample :
    find_reply_in_sheet (litOracle "a" "a" ⟨[]⟩) "a"
      (.ok [rowOf [("Keyword", "a"), ("ResponseType", "audio"),
                   ("AudioURL", "u"), ("DurationMillis", "abc")]]) =
      some errorReply ∧
    errorReply ≠ [Msg.audio (some "u") 60000] :=
  ⟨by decide, by decide⟩

/-- **C9 amended.** For every matched `audio` row: the duration is
`DurationMillis` parsed as an integer when the cell parses, and 60000 only
when the key is absent (`row.get`'s default); a present non-numeric value
makes `int()` raise, so the row's outcome is the caught exception (the
table then answers with the generic error reply). -/
theorem c9_audio_duration (R : ReOracle) (msg : String)
    (row : Row) (m : MatchResult)
    (hk : pyTruthy (row "Keyword") = true)
    (hm : R (pyStr (row "Keyword")) msg = .ok (some m))
    (ht : row "ResponseType" = some "audio") :
    (row "DurationMillis" = none →
      rowReply R msg row = .ret [Msg.audio (row "AudioURL") 60000]) ∧
    (∀ s n, row "DurationMillis" = some s → pyIntParse s = some n →
      rowReply R msg row = .ret [Msg.audio (row "AudioURL") n]) ∧
    (∀ s, row "DurationMillis" = some s → pyIntParse s = none →
      rowReply R msg row = .err) := by
  have hb : rowReply R msg row = audioBranch row := by
    simp [rowReply, hk, hm, composeReply, ht]
  refine ⟨fun hd => ?_, fun s n hd hp => ?_, fun s hd hp => ?_⟩
  · rw [hb]; simp [audioBranch, hd]
  · rw [hb]; simp [audioBranch, hd, hp]
  · rw [hb]; simp [audioBranch, hd, hp]

/-- **C9 amended witness.** A numeric `DurationMillis` of `"1234"` is
parsed into the audio item's duration. -/
theorem c9_audio_duration_witness :
    rowReply (litOracle "a" "a" ⟨[]⟩) "a"
      (rowOf [("Keyword", "a"), ("ResponseType", "audio"),
              ("AudioURL", "u"), ("DurationMillis", "1234")]) =
      .ret [Msg.audio (some "u") 1234] :=
  ((c9_audio_duration (litOracle "a" "a" ⟨[]⟩) "a"
      (rowOf [("Keyword", "a"), ("ResponseType", "audio"),
              ("AudioURL", "u"), ("DurationMillis", "1234")]) ⟨[]⟩
      (by decide) (by rfl) (by rfl)).2.1 "1234" 1234
    (by rfl) (by decide)).trans (by decide)

/-- **C10.** A row whose `Keyword` matches but whose `ResponseType` is none
of the six handled values (an absent type included) produces no reply and
raises no error: its outcome is a skip, and scanning continues with the next
row of the same table exactly as if the row were not there. -/
theorem c10_unknown_type_skips (R : ReOracle) (msg : String)
    (row : Row) (m : MatchResult) (rest : List Row)
    (hk : pyTruthy (row "Keyword") = true)
    (hm : R (pyStr (row "Keyword")) msg = .ok (some m))
    (ht : knownTypeB (row "ResponseType") = false) :
    rowReply R msg row = .skip ∧
    scanRows R msg (row :: rest) = scanRows R msg rest := by
  have hcomp : composeReply row m = .skip := by
    match hrt : row "ResponseType" with
    | none => simp [composeReply, hrt]
    | some t =>
      rw [hrt] at ht
      simp only [knownTypeB, Bool.or_eq_false_iff, beq_eq_false_iff_ne, ne_eq] at ht
      obtain ⟨⟨⟨⟨⟨h1, h2⟩, h3⟩, h4⟩, h5⟩, h6⟩ := ht
      simp [composeReply, hrt, h1, h2, h3, h4, h5, h6]
  have hrow : rowReply R msg row = .skip := by simp [rowReply, hk, hm, hcomp]
  exact ⟨hrow, by simp [scanRows, hrow]⟩

/-- **C10 witness.** A matched row with `ResponseType=sticker` is skipped
and the following `text` row answers. -/
theorem c10_unknown_type_skips_witness :
    rowReply (litOracle "k" "k" ⟨[]⟩) "k"
      (rowOf [("Keyword", "k"), ("ResponseType", "sticker")]) = .skip ∧
    scanRows (litOracle "k" "k" ⟨[]⟩) "k"
      [rowOf [("Keyword", "k"), ("ResponseType", "sticker")],
       rowOf [("Keyword", "k"), ("ResponseType", "text"), ("TextReply", "X")]] =
      scanRows (litOracle "k" "k" ⟨[]⟩) "k"
        [rowOf [("Keyword", "k"), ("ResponseType", "text"), ("TextReply", "X")]] :=
  c10_unknown_type_skips (litOracle "k" "k" ⟨[]⟩) "k"
    (rowOf [("Keyword", "k"), ("ResponseType", "sticker")]) ⟨[]⟩
    [rowOf [("Keyword", "k"), ("ResponseType", "text"), ("TextReply", "X")]]
    (by decide) (by rfl) (by rfl)
